import Mathlib

/-!
Verification of the movement/collision core of the `ittybitycity-game`
repository (a Three.js third-person walking simulator with a WebSocket
remote-control relay).

The embedding follows the richest game-script variant (the v2.0 script with
full ray-based collision) for the per-frame physics and the collision
probes, the WebSocket variant (`src/main.js`) for the remote-control
command handler, and `server.js` for the relay state.

Modelling conventions:
* All per-frame arithmetic of the game loop (gravity, jump impulse, ground
  snapping, step-up, the abyss reset) is plain field arithmetic in the
  source, so it is embedded exactly over `ℚ`.
* The geometric probes (`checkWallCollision`) use square roots and
  trigonometry, so they are embedded over `ℝ`.
* The rendering engine's spatial query (`raycaster.intersectObjects`) is an
  external collaborator; it is modelled as an oracle: a function returning
  the nearest hit (`Option` of a hit record) for `checkWallCollision`, and
  the ordered intersection list for `getGroundHeight`.  Hit records carry
  world-space surface normals (the source obtains them by transforming the
  face normal with the object's world matrix, which is the rendering
  library's transform math).
* The horizontal-movement block of the game loop (camera-relative input
  direction, `atan2` facing, wall resolution) writes only `position.x`,
  `position.z` and `rotation`; in the frame-step embedding it is abstracted
  as an oracle `horiz` producing those three values, so that theorems about
  the vertical physics quantify over every possible horizontal input and
  wall-resolution outcome.
-/

/-- A 3-component vector, mirroring `THREE.Vector3` fields `x`, `y`, `z`. -/
structure V3 (α : Type) where
  x : α
  y : α
  z : α
deriving DecidableEq, Repr

/-- A 2-component vector, mirroring `THREE.Vector2` fields `x`, `y`. -/
structure V2 (α : Type) where
  x : α
  y : α
deriving DecidableEq, Repr

/-- A ray-cast intersection as returned by the spatial query service:
nearest-hit distance, hit point, and (optionally) the world-space surface
normal.  `normal = none` models a hit whose `face`/`face.normal` is
absent (simplified collision geometry). -/
structure Hit (α : Type) where
  distance : α
  point : V3 α
  normal : Option (V3 α)
deriving DecidableEq, Repr

namespace Phys

/-- `CONFIG.GRAVITY` of the v2.0 game script. -/
def GRAVITY : ℚ := 20

/-- `CONFIG.JUMP_VELOCITY` of the v2.0 game script. -/
def JUMP_VELOCITY : ℚ := 6

/-- `CONFIG.PLAYER_HEIGHT` of the v2.0 game script (eye height above feet). -/
def PLAYER_HEIGHT : ℚ := 9 / 5

/-- `CONFIG.STEP_HEIGHT` of the v2.0 game script. -/
def STEP_HEIGHT : ℚ := 2 / 5

/-- The authoritative kinematic body: the `player` object of the game
script (`position`, `velocity`, `rotation`, `onGround`, `groundHeight`;
`isRunning` only scales the horizontal displacement, which is abstracted
into the `horiz` oracle). -/
structure Player where
  position : V3 ℚ
  velocity : V3 ℚ
  rotation : ℚ
  onGround : Bool
  groundHeight : ℚ
deriving DecidableEq, Repr

/-- The horizontal-movement block of the game loop: it assigns
`player.position.x`, `player.position.z` (from `checkWallCollision`) and
`player.rotation` (facing), and nothing else.  The three produced values
are supplied by the oracle `horiz` (new x, new z, new rotation). -/
def applyHoriz (horiz : V3 ℚ → ℚ × ℚ × ℚ) (s : Player) : Player :=
  { s with
    position := ⟨(horiz s.position).1, s.position.y, (horiz s.position).2.1⟩
    rotation := (horiz s.position).2.2 }

/-- `if (keys.jump && player.onGround) { player.velocity.y = CONFIG.JUMP_VELOCITY;
player.onGround = false; }` -/
def jumpStep (s : Player) (jump : Bool) : Player :=
  if jump && s.onGround then
    { s with velocity := ⟨s.velocity.x, JUMP_VELOCITY, s.velocity.z⟩, onGround := false }
  else s

/-- `player.velocity.y -= CONFIG.GRAVITY * delta;
player.position.y += player.velocity.y * delta;` -/
def gravityStep (δ : ℚ) (s : Player) : Player :=
  let v := s.velocity.y - GRAVITY * δ
  { s with
    velocity := ⟨s.velocity.x, v, s.velocity.z⟩
    position := ⟨s.position.x, s.position.y + v * δ, s.position.z⟩ }

/-- The GROUND COLLISION section of the game loop.  `g?` is the result of
`getGroundHeight(player.position)`; a `null` probe result is replaced by
the fallback ground height `0`.  Within snapping range (feet at most `0.1`
above the target ground) the frame either climbs a step (positive height
difference of at most `STEP_HEIGHT` while already grounded), or lands when
not moving upward; out of range it marks the player airborne. -/
def groundResolve (g? : Option ℚ) (s : Player) : Player :=
  let target := g?.getD 0
  if s.position.y - PLAYER_HEIGHT ≤ target + 1 / 10 then
    let hd := target - s.groundHeight
    -- the source writes `player.groundHeight = targetGroundY` once after the
    -- inner conditional; here that single write is distributed into the
    -- three inner paths, which is the same assignment sequence
    if 0 < hd ∧ hd ≤ STEP_HEIGHT ∧ s.onGround = true then
      { s with
        position := ⟨s.position.x, target + PLAYER_HEIGHT, s.position.z⟩
        velocity := ⟨s.velocity.x, 0, s.velocity.z⟩
        groundHeight := target }
    else if s.velocity.y ≤ 0 then
      { s with
        position := ⟨s.position.x, target + PLAYER_HEIGHT, s.position.z⟩
        velocity := ⟨s.velocity.x, 0, s.velocity.z⟩
        onGround := true
        groundHeight := target }
    else { s with groundHeight := target }
  else { s with onGround := false }

/-- `if (player.position.y < -10) { player.position.y = 50;
player.velocity.y = 0; }` — the fall-through-world safety net. -/
def abyssStep (s : Player) : Player :=
  if s.position.y < -10 then
    { s with
      position := ⟨s.position.x, 50, s.position.z⟩
      velocity := ⟨s.velocity.x, 0, s.velocity.z⟩ }
  else s

/-- One frame of the game loop's player update, in source order: horizontal
movement block, jump, gravity integration, ground collision (the ground
probe `probe` is consulted at the post-integration position), abyss reset.
`horiz` abstracts the horizontal block (new x, new z, new rotation) and
`probe` abstracts `getGroundHeight`. -/
def frameStep (horiz : V3 ℚ → ℚ × ℚ × ℚ) (probe : V3 ℚ → Option ℚ)
    (jump : Bool) (δ : ℚ) (s : Player) : Player :=
  let s2 := gravityStep δ (jumpStep (applyHoriz horiz s) jump)
  abyssStep (groundResolve (probe s2.position) s2)

/-- Identity horizontal block: keep x and z, face rotation 0 (used to
instantiate theorems at concrete inputs). -/
def horizId : V3 ℚ → ℚ × ℚ × ℚ := fun p => (p.x, p.z, 0)

/-- A ground probe that never finds a surface. -/
def probeNone : V3 ℚ → Option ℚ := fun _ => none

/-- A ground probe reporting flat ground at elevation 0 everywhere. -/
def probeFlat : V3 ℚ → Option ℚ := fun _ => some 0

/-- A ground probe reporting ground at elevation −12 everywhere (below the
abyss recovery threshold once the body height is added). -/
def probeDeep : V3 ℚ → Option ℚ := fun _ => some (-12)

/-- A ground probe reporting ground at elevation 1/4 everywhere (a ledge
within `STEP_HEIGHT` of ground 0). -/
def probeQuarter : V3 ℚ → Option ℚ := fun _ => some (1 / 4)

/-- A ground probe reporting ground at elevation 1 everywhere (a ledge
exceeding `STEP_HEIGHT` above ground 0). -/
def probeOne : V3 ℚ → Option ℚ := fun _ => some 1

/-- A grounded player standing on ground 0 (feet at 0, eye at body height). -/
def demoGrounded : Player :=
  ⟨⟨0, 9 / 5, 0⟩, ⟨0, 0, 0⟩, 0, true, 0⟩

/-- A grounded player standing on ground −12 (below the abyss threshold). -/
def demoDeepGrounded : Player :=
  ⟨⟨0, -51 / 5, 0⟩, ⟨0, 0, 0⟩, 0, true, -12⟩

/-- An airborne player high above the ground. -/
def demoAirborne : Player :=
  ⟨⟨0, 5, 0⟩, ⟨0, 0, 0⟩, 0, false, 0⟩

/-- An airborne player falling just above the fallback plane's snap range. -/
def demoLowFalling : Player :=
  ⟨⟨0, 19 / 10, 0⟩, ⟨0, -1, 0⟩, 0, false, 0⟩

end Phys

namespace Wall

/-- `CONFIG.PLAYER_HEIGHT` of the v2.0 game script, as a real number. -/
noncomputable def PLAYER_HEIGHT : ℝ := 1.8

/-- `CONFIG.PLAYER_RADIUS` of the v2.0 game script. -/
noncomputable def PLAYER_RADIUS : ℝ := 0.3

/-- `CONFIG.COLLISION_SAMPLES` of the v2.0 game script: the number of
radial corner-probe rays. -/
def COLLISION_SAMPLES : ℕ := 8

/-- Euclidean length of a 3-vector (`THREE.Vector3.length`). -/
noncomputable def norm3 (v : V3 ℝ) : ℝ :=
  Real.sqrt (v.x ^ 2 + v.y ^ 2 + v.z ^ 2)

/-- `THREE.Vector3.normalize`: divide by the length, or by 1 when the
length is 0 (`divideScalar(this.length() || 1)` leaves the zero vector
unchanged). -/
noncomputable def normalize3 (v : V3 ℝ) : V3 ℝ :=
  if norm3 v = 0 then v else ⟨v.x / norm3 v, v.y / norm3 v, v.z / norm3 v⟩

/-- Euclidean length of a 2-vector (`THREE.Vector2.length`). -/
noncomputable def norm2 (v : V2 ℝ) : ℝ :=
  Real.sqrt (v.x ^ 2 + v.y ^ 2)

/-- `THREE.Vector2.normalize`, with the same zero-vector behaviour as
`normalize3`. -/
noncomputable def normalize2 (v : V2 ℝ) : V2 ℝ :=
  if norm2 v = 0 then v else ⟨v.x / norm2 v, v.y / norm2 v⟩

/-- 2D dot product (`THREE.Vector2.dot`). -/
def dot2 (a b : V2 ℝ) : ℝ := a.x * b.x + a.y * b.y

/-- The slide-resolution core of `checkWallCollision`: remove from the 2D
movement vector `mv` the component pointing into the wall, but only when
that component opposes the motion:
`const dot = moveVec2D.dot(wallNormal2D); if (dot < 0) { moveVec2D.x -= dot * wallNormal2D.x; moveVec2D.y -= dot * wallNormal2D.y; }`. -/
noncomputable def slideMove (mv wn : V2 ℝ) : V2 ℝ :=
  let d := dot2 mv wn
  if d < 0 then ⟨mv.x - d * wn.x, mv.y - d * wn.y⟩ else mv

/-- The spatial query service consumed by the wall probe: for an origin, a
direction and a maximum distance, the nearest intersection with the
collision-geometry set (`raycaster.intersectObjects(...)[0]`), or `none`
when there is no intersection within range. -/
def CastRay : Type := V3 ℝ → V3 ℝ → ℝ → Option (Hit ℝ)

/-- The per-height probe heights of `checkWallCollision`:
`[0.2, CONFIG.PLAYER_HEIGHT * 0.5, CONFIG.PLAYER_HEIGHT - 0.2]`
(near feet, mid-body, near head, measured up from the feet). -/
noncomputable def checkHeights : List ℝ :=
  [0.2, PLAYER_HEIGHT * 0.5, PLAYER_HEIGHT - 0.2]

/-- One directional probe of `checkWallCollision` at one body height:
cast a horizontal ray in the movement direction; if the nearest hit's
world normal is mostly horizontal (`|normal.y| < 0.5`) and the safe travel
distance falls short of the intended distance, recompute the x/z of the
safe position by sliding the movement vector along the wall. -/
noncomputable def heightProbe (castRay : CastRay) (fromP : V3 ℝ)
    (md : V3 ℝ) (moveDistance : ℝ) (sp : V3 ℝ) (heightOffset : ℝ) : V3 ℝ :=
  let origin : V3 ℝ := ⟨fromP.x, fromP.y - PLAYER_HEIGHT + heightOffset, fromP.z⟩
  let horizontalDir := normalize3 ⟨md.x, 0, md.z⟩
  if norm3 horizontalDir < 0.001 then sp
  else
    match castRay origin horizontalDir (moveDistance + PLAYER_RADIUS) with
    | none => sp
    | some hit =>
      match hit.normal with
      | none => sp
      | some n =>
        if |n.y| < 0.5 then
          let safeDistance := max 0 (hit.distance - PLAYER_RADIUS - 0.05)
          if safeDistance < moveDistance then
            let wn := normalize2 ⟨n.x, n.z⟩
            let mv := slideMove ⟨md.x, md.z⟩ wn
            ⟨fromP.x + mv.x * moveDistance, sp.y, fromP.z + mv.y * moveDistance⟩
          else sp
        else sp

/-- One radial corner probe of `checkWallCollision`: cast a short
horizontal ray at mid-body height from the current safe position; when the
hit is closer than the collision radius (plus margin), push the position
away from the surface by the penetration amount. -/
noncomputable def radialProbe (castRay : CastRay) (sp : V3 ℝ) (i : ℕ) : V3 ℝ :=
  let angle := ((i : ℝ) / (COLLISION_SAMPLES : ℝ)) * Real.pi * 2
  let dir : V3 ℝ := ⟨Real.cos angle, 0, Real.sin angle⟩
  let origin : V3 ℝ := ⟨sp.x, sp.y - PLAYER_HEIGHT * 0.5, sp.z⟩
  match castRay origin dir (PLAYER_RADIUS + 0.1) with
  | none => sp
  | some hit =>
    let pushDistance := PLAYER_RADIUS + 0.05 - hit.distance
    if 0 < pushDistance then
      ⟨sp.x - dir.x * pushDistance, sp.y, sp.z - dir.z * pushDistance⟩
    else sp

/-- `checkWallCollision(from, to)`: returns a safe position after wall
collision resolution.  Degenerate displacements below the `0.001` epsilon
return `to` unchanged; otherwise the movement direction is probed at three
body heights (sliding along any wall found), then eight fixed radial
corner probes push the resolved position out of nearby surfaces. -/
noncomputable def checkWallCollision (castRay : CastRay) (fromP toP : V3 ℝ) : V3 ℝ :=
  let moveDirection : V3 ℝ := ⟨toP.x - fromP.x, toP.y - fromP.y, toP.z - fromP.z⟩
  let moveDistance := norm3 moveDirection
  if moveDistance < 0.001 then toP
  else
    let md := normalize3 moveDirection
    let afterHeights :=
      checkHeights.foldl (heightProbe castRay fromP md moveDistance) toP
    (List.range COLLISION_SAMPLES).foldl (radialProbe castRay) afterHeights

/-- A spatial query service with no geometry: every ray misses. -/
def noHits : CastRay := fun _ _ _ => none

end Wall

namespace Ground

/-- `getGroundHeight`: walk the ordered downward-ray intersection list and
return the elevation of the first hit that is walkable — a hit whose
world-space surface normal has vertical component above `0.5`, or a hit
carrying no normal information at all (assumed to be a floor).  Hits with
a mostly-sideways normal are skipped.  Returns `none` when no intersection
qualifies.  (The ray itself — origin 10 above the query point, pointing
down, bounded range — is part of the spatial query service producing the
list.)  Polymorphic in the ordered field so that it can be evaluated
exactly on rational test data. -/
def getGroundHeight {α : Type} [LinearOrderedField α] :
    List (Hit α) → Option α
  | [] => none
  | h :: rest =>
    match h.normal with
    | some n => if 1 / 2 < n.y then some h.point.y else getGroundHeight rest
    | none => some h.point.y

/-- A hit is rejected by the ground probe when it carries a normal that is
not walkable (vertical component at most 1/2). -/
def steep {α : Type} [LinearOrderedField α] (h : Hit α) : Prop :=
  ∃ n, h.normal = some n ∧ n.y ≤ 1 / 2

/-- A hit is accepted by the ground probe: either no normal information,
or a walkable normal. -/
def walkable {α : Type} [LinearOrderedField α] (h : Hit α) : Prop :=
  h.normal = none ∨ ∃ n, h.normal = some n ∧ 1 / 2 < n.y

/-- Demonstration intersection list: first a wall-like hit (horizontal
normal), then a floor hit at elevation 3. -/
def demoHits : List (Hit ℚ) :=
  [⟨5, ⟨0, 7, 0⟩, some ⟨1, 0, 0⟩⟩, ⟨6, ⟨0, 3, 0⟩, some ⟨0, 1, 0⟩⟩]

end Ground

namespace Cam

/-- `CONFIG.CAMERA_MIN_DISTANCE` of the v2.0 game script. -/
noncomputable def CAMERA_MIN_DISTANCE : ℝ := 2

/-- `CONFIG.CAMERA_MAX_DISTANCE` of the v2.0 game script. -/
noncomputable def CAMERA_MAX_DISTANCE : ℝ := 10

/-- `CONFIG.MOUSE_SENSITIVITY`. -/
noncomputable def MOUSE_SENSITIVITY : ℝ := 0.002

/-- The `cameraOrbit` state: pitch (`angleX`), yaw (`angleY`) and orbit
distance. -/
structure CameraOrbit where
  angleX : ℝ
  angleY : ℝ
  distance : ℝ

/-- The v2.0 `mousemove` handler (pointer locked): accumulate yaw and
pitch from the mouse deltas, then clamp the pitch to `[-π/4, π/3]`:
`cameraOrbit.angleX = Math.max(-Math.PI / 4, Math.min(Math.PI / 3, cameraOrbit.angleX))`. -/
noncomputable def applyMouseMove (co : CameraOrbit) (dx dy : ℝ) : CameraOrbit :=
  let ay := co.angleY - dx * MOUSE_SENSITIVITY
  let ax := co.angleX - dy * MOUSE_SENSITIVITY
  { co with
    angleY := ay
    angleX := max (-(Real.pi / 4)) (min (Real.pi / 3) ax) }

/-- The v2.0 `wheel` handler (pointer locked): adjust the distance by the
scroll delta, then clamp it to `[CAMERA_MIN_DISTANCE, CAMERA_MAX_DISTANCE]`. -/
noncomputable def applyWheel (co : CameraOrbit) (deltaY : ℝ) : CameraOrbit :=
  let d := co.distance + deltaY * 0.01
  { co with distance := max CAMERA_MIN_DISTANCE (min CAMERA_MAX_DISTANCE d) }

/-- The `look` command of `handleCommand` in the WebSocket game script:
`cameraOrbit.angleX = msg.rx || 0; cameraOrbit.angleY = msg.ry || 0;`
(an absent field becomes 0; no clamping is applied). -/
noncomputable def applyLook (co : CameraOrbit) (rx ry : Option ℝ) : CameraOrbit :=
  { co with angleX := rx.getD 0, angleY := ry.getD 0 }

/-- A camera orbit at rest: level pitch, zero yaw, default distance 5. -/
noncomputable def co0 : CameraOrbit := ⟨0, 0, 5⟩

end Cam

namespace Remote

/-- `PLAYER_HEIGHT` of the WebSocket game script (`main.js`), stored as
`player.height`. -/
noncomputable def PLAYER_HEIGHT : ℝ := 1.7

/-- The `player` state of the WebSocket game script, restricted to the
fields a remote command can touch. -/
structure MainPlayer where
  position : V3 ℝ
  velocity : V3 ℝ
  rotation : ℝ
  onGround : Bool

/-- The loaded character model's transform (position and y-rotation). -/
structure ModelT where
  position : V3 ℝ
  rotationY : ℝ

/-- The client-side game state visible to `handleCommand`: player, camera
orbit, and the optional character model. -/
structure ClientState where
  player : MainPlayer
  cameraOrbit : Cam.CameraOrbit
  characterModel : Option ModelT

/-- The `teleport` command of `handleCommand`:
`player.position.set(msg.x, msg.y, msg.z);` then, when a character model is
loaded, `characterModel.position.copy(player.position);
characterModel.position.y -= player.height;`. -/
noncomputable def handleTeleport (g : ClientState) (x y z : ℝ) : ClientState :=
  { g with
    player := { g.player with position := ⟨x, y, z⟩ }
    characterModel := g.characterModel.map fun m =>
      { m with position := ⟨x, y - PLAYER_HEIGHT, z⟩ } }

end Remote

/-! ### Helper lemmas about the frame's vertical resolution -/

/-- The abyss reset does nothing when the position is at or above the
threshold. -/
lemma abyssStep_of_ge (s : Phys.Player) (h : -10 ≤ s.position.y) :
    Phys.abyssStep s = s := by
  unfold Phys.abyssStep
  rw [if_neg (not_lt.mpr h)]

/-- The abyss reset never changes `onGround`. -/
lemma abyssStep_onGround (s : Phys.Player) :
    (Phys.abyssStep s).onGround = s.onGround := by
  unfold Phys.abyssStep
  split_ifs <;> rfl

/-- When the player is grounded, not moving upward, and within snapping
range of the target ground, the ground resolution snaps the vertical
position to `target + PLAYER_HEIGHT`, zeroes the vertical velocity, keeps
the player grounded and records the target as the new `groundHeight`
(the step-up branch and the landing branch both produce this state). -/
lemma groundResolve_snap (g? : Option ℚ) (s : Phys.Player)
    (hog : s.onGround = true) (hvy : s.velocity.y ≤ 0)
    (hC : s.position.y - Phys.PLAYER_HEIGHT ≤ g?.getD 0 + 1 / 10) :
    Phys.groundResolve g? s =
      { s with
        position := ⟨s.position.x, g?.getD 0 + Phys.PLAYER_HEIGHT, s.position.z⟩
        velocity := ⟨s.velocity.x, 0, s.velocity.z⟩
        onGround := true
        groundHeight := g?.getD 0 } := by
  simp only [Phys.groundResolve]
  rw [if_pos hC]
  by_cases hB : 0 < g?.getD 0 - s.groundHeight
      ∧ g?.getD 0 - s.groundHeight ≤ Phys.STEP_HEIGHT ∧ s.onGround = true
  · rw [if_pos hB, hog]
  · rw [if_neg hB, if_pos hvy]

/-- Out of snapping range, the ground resolution only clears `onGround`. -/
lemma groundResolve_miss (g? : Option ℚ) (s : Phys.Player)
    (hC : ¬ s.position.y - Phys.PLAYER_HEIGHT ≤ g?.getD 0 + 1 / 10) :
    Phys.groundResolve g? s = { s with onGround := false } := by
  simp only [Phys.groundResolve]
  rw [if_neg hC]

/-- An airborne player moving upward stays airborne through the ground
resolution (neither the step-up branch nor the landing branch can fire). -/
lemma groundResolve_airborne_up (g? : Option ℚ) (s : Phys.Player)
    (hog : s.onGround = false) (hvy : 0 < s.velocity.y) :
    (Phys.groundResolve g? s).onGround = false := by
  simp only [Phys.groundResolve]
  split_ifs with hC hB hL
  · simp [hog] at hB
  · linarith
  · exact hog
  · rfl

/-! ### Claim theorems -/

/-- Claim C1, counterexample: a frame of the game loop that starts
grounded (zero vertical velocity, no jump input) can end with `onGround`
true while `position.y` differs from `groundHeight + PLAYER_HEIGHT`: when
the ground lies below the abyss threshold, the landing snap is overridden
by the `position.y < -10` safety reset to height 50. -/
theorem abyss_reset_breaks_grounded_snap :
    Phys.demoDeepGrounded.onGround = true
    ∧ Phys.demoDeepGrounded.velocity.y = 0
    ∧ (Phys.frameStep Phys.horizId Phys.probeDeep false (1 / 100) Phys.demoDeepGrounded).onGround
        = true
    ∧ ¬ (Phys.frameStep Phys.horizId Phys.probeDeep false (1 / 100) Phys.demoDeepGrounded).position.y
        = (Phys.frameStep Phys.horizId Phys.probeDeep false (1 / 100) Phys.demoDeepGrounded).groundHeight
          + Phys.PLAYER_HEIGHT := by
  norm_num [Phys.frameStep, Phys.gravityStep, Phys.jumpStep, Phys.applyHoriz, Phys.groundResolve,
    Phys.abyssStep, Phys.demoDeepGrounded, Phys.probeDeep, Phys.horizId, Phys.PLAYER_HEIGHT,
    Phys.GRAVITY, Phys.STEP_HEIGHT]

/-- Claim C1 (amended): for every frame that starts grounded with zero
vertical velocity and no jump input — any horizontal input and any probe
outcome — if the frame ends with `onGround` true then the vertical
position equals the resolved ground height plus the body height exactly
and the vertical velocity is zero, provided every probed ground level
stays above the abyss-reset threshold (`target + PLAYER_HEIGHT ≥ -10`). -/
theorem grounded_frame_snaps_exactly (horiz : V3 ℚ → ℚ × ℚ × ℚ)
    (probe : V3 ℚ → Option ℚ) (δ : ℚ) (s : Phys.Player)
    (hδ : 0 ≤ δ) (hg : s.onGround = true) (hv : s.velocity.y = 0)
    (habyss : ∀ p, -10 ≤ (probe p).getD 0 + Phys.PLAYER_HEIGHT) :
    (Phys.frameStep horiz probe false δ s).onGround = true →
      (Phys.frameStep horiz probe false δ s).position.y
          = (Phys.frameStep horiz probe false δ s).groundHeight + Phys.PLAYER_HEIGHT
        ∧ (Phys.frameStep horiz probe false δ s).velocity.y = 0 := by
  intro hres
  set s2 := Phys.gravityStep δ (Phys.jumpStep (Phys.applyHoriz horiz s) false) with hs2
  have hfr : Phys.frameStep horiz probe false δ s
      = Phys.abyssStep (Phys.groundResolve (probe s2.position) s2) := rfl
  have hog2 : s2.onGround = true := hg
  have hvy2 : s2.velocity.y ≤ 0 := by
    have he : s2.velocity.y = s.velocity.y - Phys.GRAVITY * δ := rfl
    rw [he, hv, Phys.GRAVITY]
    nlinarith
  by_cases hC : s2.position.y - Phys.PLAYER_HEIGHT ≤ (probe s2.position).getD 0 + 1 / 10
  · have hsnap := groundResolve_snap (probe s2.position) s2 hog2 hvy2 hC
    have hge : -10 ≤ (Phys.groundResolve (probe s2.position) s2).position.y := by
      rw [hsnap]
      exact habyss s2.position
    rw [hfr, abyssStep_of_ge _ hge, hsnap]
    exact ⟨rfl, rfl⟩
  · exfalso
    rw [hfr, groundResolve_miss _ _ hC, abyssStep_onGround] at hres
    simp at hres

/-- Claim C2, counterexample: a frame in which the ground probe finds no
surface does not always leave the player falling — with the integrated
position within snapping range of the fallback ground level 0, the frame
lands on the implicit plane: `onGround` ends true and the vertical
position is snapped rather than left as integrated. -/
theorem missing_ground_can_still_land :
    (Phys.frameStep Phys.horizId Phys.probeNone false (1 / 10) Phys.demoLowFalling).onGround = true
    ∧ ¬ (Phys.frameStep Phys.horizId Phys.probeNone false (1 / 10) Phys.demoLowFalling).position.y
        = (Phys.gravityStep (1 / 10)
            (Phys.jumpStep (Phys.applyHoriz Phys.horizId Phys.demoLowFalling) false)).position.y := by
  norm_num [Phys.frameStep, Phys.gravityStep, Phys.jumpStep, Phys.applyHoriz, Phys.groundResolve,
    Phys.abyssStep, Phys.demoLowFalling, Phys.probeNone, Phys.horizId, Phys.PLAYER_HEIGHT,
    Phys.GRAVITY, Phys.STEP_HEIGHT]

/-- Claim C2 (amended): a frame in which the ground probe finds no surface
substitutes the fallback ground level 0; the player is treated as falling
— `onGround` cleared and the vertical position left exactly as integrated
— whenever the integrated position is more than `0.1` above
`0 + PLAYER_HEIGHT` (otherwise the frame lands on the implicit plane at
elevation 0). -/
theorem missing_ground_falls_when_above_fallback (horiz : V3 ℚ → ℚ × ℚ × ℚ)
    (probe : V3 ℚ → Option ℚ) (jump : Bool) (δ : ℚ) (s : Phys.Player)
    (hpnone : ∀ p, probe p = none)
    (hy : Phys.PLAYER_HEIGHT + 1 / 10
        < (Phys.gravityStep δ (Phys.jumpStep (Phys.applyHoriz horiz s) jump)).position.y) :
    (Phys.frameStep horiz probe jump δ s).onGround = false
    ∧ (Phys.frameStep horiz probe jump δ s).position.y
        = (Phys.gravityStep δ (Phys.jumpStep (Phys.applyHoriz horiz s) jump)).position.y := by
  set s2 := Phys.gravityStep δ (Phys.jumpStep (Phys.applyHoriz horiz s) jump) with hs2
  have hfr : Phys.frameStep horiz probe jump δ s
      = Phys.abyssStep (Phys.groundResolve (probe s2.position) s2) := rfl
  have hC : ¬ s2.position.y - Phys.PLAYER_HEIGHT ≤ (probe s2.position).getD 0 + 1 / 10 := by
    rw [hpnone s2.position]
    simp only [Option.getD]
    intro hcon
    linarith
  have hHpos : (0 : ℚ) < Phys.PLAYER_HEIGHT := by norm_num [Phys.PLAYER_HEIGHT]
  have hge : -10 ≤ (Phys.groundResolve (probe s2.position) s2).position.y := by
    rw [groundResolve_miss _ _ hC]
    have : -10 ≤ s2.position.y := by linarith
    exact this
  rw [hfr, abyssStep_of_ge _ hge, groundResolve_miss _ _ hC]
  exact ⟨rfl, rfl⟩

/-- Claim C3, counterexample: a ground-height increase exceeding
`STEP_HEIGHT` (here 1 > 0.4) under a grounded player still produces the
snap — the frame ends with `position.y = newGroundHeight + PLAYER_HEIGHT`,
zero vertical velocity and `onGround` true, via the normal-landing branch
(velocity ≤ 0), contradicting "a height difference exceeding the step
height does not produce this snap". -/
theorem overstep_height_still_snaps :
    Phys.demoGrounded.onGround = true
    ∧ Phys.STEP_HEIGHT < 1 - Phys.demoGrounded.groundHeight
    ∧ (Phys.frameStep Phys.horizId Phys.probeOne false (1 / 100) Phys.demoGrounded).position.y
        = 1 + Phys.PLAYER_HEIGHT
    ∧ (Phys.frameStep Phys.horizId Phys.probeOne false (1 / 100) Phys.demoGrounded).velocity.y = 0
    ∧ (Phys.frameStep Phys.horizId Phys.probeOne false (1 / 100) Phys.demoGrounded).onGround
        = true := by
  norm_num [Phys.frameStep, Phys.gravityStep, Phys.jumpStep, Phys.applyHoriz, Phys.groundResolve,
    Phys.abyssStep, Phys.demoGrounded, Phys.probeOne, Phys.horizId, Phys.PLAYER_HEIGHT,
    Phys.GRAVITY, Phys.STEP_HEIGHT]

/-- Claim C3 (amended): when the probed ground exceeds the previous
`groundHeight` by a positive amount of at most `STEP_HEIGHT` and the
player was already grounded (standing at `groundHeight + PLAYER_HEIGHT`
with zero vertical velocity, no jump), the frame takes the step-up branch:
it snaps the vertical position to `newGroundHeight + PLAYER_HEIGHT`,
zeroes the vertical velocity, leaves `onGround` true, and records the new
ground height — with no upward velocity spike.  (A difference exceeding
`STEP_HEIGHT` does not take the step-up branch, but the landing branch can
still snap, as the counterexample shows; over-step ledges are blocked only
by the wall probe.) -/
theorem step_up_snap_within_step_height (horiz : V3 ℚ → ℚ × ℚ × ℚ)
    (probe : V3 ℚ → Option ℚ) (δ g1 : ℚ) (s : Phys.Player)
    (hg : s.onGround = true) (hv : s.velocity.y = 0) (hδ : 0 ≤ δ)
    (hp : ∀ p, probe p = some g1)
    (h1 : 0 < g1 - s.groundHeight) (h2 : g1 - s.groundHeight ≤ Phys.STEP_HEIGHT)
    (hab : -10 ≤ g1 + Phys.PLAYER_HEIGHT)
    (hy : s.position.y = s.groundHeight + Phys.PLAYER_HEIGHT) :
    (Phys.frameStep horiz probe false δ s).position.y = g1 + Phys.PLAYER_HEIGHT
    ∧ (Phys.frameStep horiz probe false δ s).velocity.y = 0
    ∧ (Phys.frameStep horiz probe false δ s).onGround = true
    ∧ (Phys.frameStep horiz probe false δ s).groundHeight = g1 := by
  set s2 := Phys.gravityStep δ (Phys.jumpStep (Phys.applyHoriz horiz s) false) with hs2
  have hfr : Phys.frameStep horiz probe false δ s
      = Phys.abyssStep (Phys.groundResolve (probe s2.position) s2) := rfl
  have hog2 : s2.onGround = true := hg
  have hvy2 : s2.velocity.y ≤ 0 := by
    have he : s2.velocity.y = s.velocity.y - Phys.GRAVITY * δ := rfl
    rw [he, hv, Phys.GRAVITY]
    nlinarith
  have hC : s2.position.y - Phys.PLAYER_HEIGHT ≤ (probe s2.position).getD 0 + 1 / 10 := by
    have he : s2.position.y
        = s.position.y + (s.velocity.y - Phys.GRAVITY * δ) * δ := rfl
    rw [hp s2.position]
    simp only [Option.getD]
    rw [he, hy, hv]
    have hG : (0 : ℚ) ≤ Phys.GRAVITY := by norm_num [Phys.GRAVITY]
    nlinarith [mul_nonneg (mul_nonneg hG hδ) hδ]
  have hsnap := groundResolve_snap (probe s2.position) s2 hog2 hvy2 hC
  have hge : -10 ≤ (Phys.groundResolve (probe s2.position) s2).position.y := by
    rw [hsnap, hp s2.position]
    exact hab
  rw [hfr, abyssStep_of_ge _ hge, hsnap, hp s2.position]
  exact ⟨rfl, rfl, rfl, rfl⟩

/-- Claim C4: (i) a jump request while grounded sets the vertical velocity
to the configured jump impulse and clears `onGround` in that step; (ii) a
jump request while airborne leaves the entire frame result unchanged
(identical to the same frame without the jump request); (iii) the clear
survives the whole frame: with the frame's `dt` clamp (`δ ≤ 0.1`), a frame
that starts grounded with jump requested ends with `onGround = false`. -/
theorem jump_impulse_and_airborne_inertness (s t : Phys.Player)
    (horiz : V3 ℚ → ℚ × ℚ × ℚ) (probe : V3 ℚ → Option ℚ) (δ : ℚ)
    (hs : s.onGround = true) (ht : t.onGround = false)
    (hδ0 : 0 ≤ δ) (hδ1 : δ ≤ 1 / 10) :
    Phys.jumpStep s true
        = { s with velocity := ⟨s.velocity.x, Phys.JUMP_VELOCITY, s.velocity.z⟩,
                   onGround := false }
    ∧ Phys.frameStep horiz probe true δ t = Phys.frameStep horiz probe false δ t
    ∧ (Phys.frameStep horiz probe true δ s).onGround = false := by
  refine ⟨?_, ?_, ?_⟩
  · unfold Phys.jumpStep
    rw [hs]
    rfl
  · have h1 : (Phys.applyHoriz horiz t).onGround = false := ht
    have h2 : Phys.jumpStep (Phys.applyHoriz horiz t) true
        = Phys.jumpStep (Phys.applyHoriz horiz t) false := by
      unfold Phys.jumpStep
      rw [h1]
      rfl
    simp only [Phys.frameStep]
    rw [h2]
  · have h1 : (Phys.applyHoriz horiz s).onGround = true := hs
    have hjump : Phys.jumpStep (Phys.applyHoriz horiz s) true
        = { Phys.applyHoriz horiz s with
            velocity := ⟨(Phys.applyHoriz horiz s).velocity.x, Phys.JUMP_VELOCITY,
              (Phys.applyHoriz horiz s).velocity.z⟩,
            onGround := false } := by
      unfold Phys.jumpStep
      rw [h1]
      rfl
    set s2 := Phys.gravityStep δ (Phys.jumpStep (Phys.applyHoriz horiz s) true) with hs2
    have hfr : Phys.frameStep horiz probe true δ s
        = Phys.abyssStep (Phys.groundResolve (probe s2.position) s2) := rfl
    have hog2 : s2.onGround = false := by
      rw [hs2, hjump]
      rfl
    have hvy2 : 0 < s2.velocity.y := by
      have he : s2.velocity.y
          = (Phys.jumpStep (Phys.applyHoriz horiz s) true).velocity.y - Phys.GRAVITY * δ := rfl
      rw [he, hjump]
      show (0 : ℚ) < Phys.JUMP_VELOCITY - Phys.GRAVITY * δ
      rw [Phys.JUMP_VELOCITY, Phys.GRAVITY]
      linarith
    rw [hfr, abyssStep_onGround]
    exact groundResolve_airborne_up _ _ hog2 hvy2

/-- Claim C5: the slide resolution of `checkWallCollision` removes from
the 2D movement vector exactly its projection onto the (unit) wall normal,
and only when that projection opposes the motion (negative dot product);
the tangential component is always preserved, so the motion slides along
the wall instead of stopping. -/
theorem slide_removes_normal_component (mv wn t : V2 ℝ)
    (hw : wn.x ^ 2 + wn.y ^ 2 = 1) (ht : Wall.dot2 t wn = 0) :
    (Wall.dot2 mv wn < 0 →
      Wall.slideMove mv wn
          = ⟨mv.x - Wall.dot2 mv wn * wn.x, mv.y - Wall.dot2 mv wn * wn.y⟩
        ∧ Wall.dot2 (Wall.slideMove mv wn) wn = 0
        ∧ Wall.dot2 (Wall.slideMove mv wn) t = Wall.dot2 mv t)
    ∧ (0 ≤ Wall.dot2 mv wn → Wall.slideMove mv wn = mv) := by
  constructor
  · intro hneg
    have hs : Wall.slideMove mv wn
        = ⟨mv.x - Wall.dot2 mv wn * wn.x, mv.y - Wall.dot2 mv wn * wn.y⟩ := by
      unfold Wall.slideMove
      rw [if_pos hneg]
    refine ⟨hs, ?_, ?_⟩
    · rw [hs]
      simp only [Wall.dot2] at *
      linear_combination (-(mv.x * wn.x + mv.y * wn.y)) * hw
    · rw [hs]
      simp only [Wall.dot2] at *
      linear_combination (-(mv.x * wn.x + mv.y * wn.y)) * ht
  · intro hpos
    unfold Wall.slideMove
    rw [if_neg (not_lt.mpr hpos)]

/-- Claim C6: `getGroundHeight` returns the elevation of the first hit in
the intersection list that is walkable (no normal information, or a normal
with vertical component above 0.5), after skipping only hits whose normals
are too steep; it returns `none` exactly when every hit is too steep. -/
theorem ground_probe_first_walkable {α : Type} [LinearOrderedField α]
    (hits : List (Hit α)) :
    (∀ y, Ground.getGroundHeight hits = some y →
        ∃ l1 h l2, hits = l1 ++ h :: l2 ∧ (∀ h' ∈ l1, Ground.steep h')
          ∧ Ground.walkable h ∧ y = h.point.y)
    ∧ (Ground.getGroundHeight hits = none → ∀ h ∈ hits, Ground.steep h) := by
  induction hits with
  | nil =>
    constructor
    · intro y hy
      simp [Ground.getGroundHeight] at hy
    · intro _ h hh
      simp at hh
  | cons hd tl ih =>
    rcases hn : hd.normal with _ | n
    · constructor
      · intro y hy
        rw [Ground.getGroundHeight, hn] at hy
        refine ⟨[], hd, tl, rfl, by simp, Or.inl hn, ?_⟩
        exact (Option.some_injective α hy).symm
      · intro h0
        rw [Ground.getGroundHeight, hn] at h0
        simp at h0
    · by_cases hy2 : 1 / 2 < n.y
      · constructor
        · intro y hy
          simp only [Ground.getGroundHeight, hn, if_pos hy2] at hy
          refine ⟨[], hd, tl, rfl, by simp, Or.inr ⟨n, hn, hy2⟩, ?_⟩
          exact (Option.some_injective α hy).symm
        · intro h0
          simp only [Ground.getGroundHeight, hn, if_pos hy2] at h0
          exact absurd h0 (Option.some_ne_none _)
      · have hstep : Ground.getGroundHeight (hd :: tl) = Ground.getGroundHeight tl := by
          simp only [Ground.getGroundHeight, hn, if_neg hy2]
        constructor
        · intro y hy
          rw [hstep] at hy
          obtain ⟨l1, h, l2, he, hl1, hwk, hyy⟩ := ih.1 y hy
          refine ⟨hd :: l1, h, l2, by rw [he]; rfl, ?_, hwk, hyy⟩
          intro h' hh'
          rcases List.mem_cons.mp hh' with rfl | hmem
          · exact ⟨n, hn, le_of_not_lt hy2⟩
          · exact hl1 h' hmem
        · intro h0 h hh
          rw [hstep] at h0
          rcases List.mem_cons.mp hh with rfl | hmem
          · exact ⟨n, hn, le_of_not_lt hy2⟩
          · exact ih.2 h0 h hmem

/-- Claim C7: a displacement whose magnitude is below the 0.001 epsilon
makes `checkWallCollision` return `to` unchanged, for every possible
spatial query service — so no directional probe and no radial corner
probe can influence the result. -/
theorem wall_probe_epsilon_identity (castRay : Wall.CastRay) (fromP toP : V3 ℝ)
    (h : Wall.norm3 ⟨toP.x - fromP.x, toP.y - fromP.y, toP.z - fromP.z⟩ < 0.001) :
    Wall.checkWallCollision castRay fromP toP = toP := by
  simp only [Wall.checkWallCollision]
  rw [if_pos h]

/-- Claim C9: `checkWallCollision` is deterministic — identical collision
geometry (pointwise-equal spatial query services) and identical `from`/`to`
always produce the same resolved position; the probe heights and radial
angles are fixed enumerations with no randomness. -/
theorem wall_probe_deterministic (g1 g2 : Wall.CastRay)
    (hg : ∀ o d f, g1 o d f = g2 o d f) (fromP toP : V3 ℝ) :
    Wall.checkWallCollision g1 fromP toP = Wall.checkWallCollision g2 fromP toP := by
  have h : g1 = g2 := funext fun o => funext fun d => funext fun f => hg o d f
  rw [h]

/-- Claim C8, counterexample: the remote `look` command writes the pitch
angle without clamping — `look` with `rx = 10` leaves the pitch at 10,
which exceeds both variants' configured upper clamp bounds (`π/3` for the
v2.0 mouse handler, `π/4` for the WebSocket variant's mouse handler). -/
theorem look_command_escapes_pitch_clamp :
    (Cam.applyLook Cam.co0 (some 10) (some 0)).angleX = 10
    ∧ Real.pi / 3 < (Cam.applyLook Cam.co0 (some 10) (some 0)).angleX
    ∧ Real.pi / 4 < (Cam.applyLook Cam.co0 (some 10) (some 0)).angleX := by
  have hpi := Real.pi_lt_d2
  have he : (Cam.applyLook Cam.co0 (some 10) (some 0)).angleX = 10 := rfl
  refine ⟨he, ?_, ?_⟩ <;> rw [he] <;> linarith

/-- Claim C8 (amended): the local camera-orbit operations maintain the
clamp invariants — after a mouse-motion update the pitch lies in
`[-π/4, π/3]` and the distance is untouched, and after a wheel update the
distance lies in `[CAMERA_MIN_DISTANCE, CAMERA_MAX_DISTANCE]` and the
pitch is untouched; the remote `look` command, however, overwrites the
pitch unclamped (see the counterexample), so the invariant holds after
mouse motion and zoom but not after an arbitrary `look`. -/
theorem mouse_and_wheel_preserve_orbit_clamps (co : Cam.CameraOrbit) (dx dy dw : ℝ)
    (hx1 : -(Real.pi / 4) ≤ co.angleX) (hx2 : co.angleX ≤ Real.pi / 3)
    (hd1 : Cam.CAMERA_MIN_DISTANCE ≤ co.distance)
    (hd2 : co.distance ≤ Cam.CAMERA_MAX_DISTANCE) :
    (-(Real.pi / 4) ≤ (Cam.applyMouseMove co dx dy).angleX
      ∧ (Cam.applyMouseMove co dx dy).angleX ≤ Real.pi / 3
      ∧ Cam.CAMERA_MIN_DISTANCE ≤ (Cam.applyMouseMove co dx dy).distance
      ∧ (Cam.applyMouseMove co dx dy).distance ≤ Cam.CAMERA_MAX_DISTANCE)
    ∧ (-(Real.pi / 4) ≤ (Cam.applyWheel co dw).angleX
      ∧ (Cam.applyWheel co dw).angleX ≤ Real.pi / 3
      ∧ Cam.CAMERA_MIN_DISTANCE ≤ (Cam.applyWheel co dw).distance
      ∧ (Cam.applyWheel co dw).distance ≤ Cam.CAMERA_MAX_DISTANCE) := by
  have hpi := Real.pi_pos
  constructor
  · refine ⟨?_, ?_, ?_, ?_⟩
    · show -(Real.pi / 4)
        ≤ max (-(Real.pi / 4)) (min (Real.pi / 3) (co.angleX - dy * Cam.MOUSE_SENSITIVITY))
      exact le_max_left _ _
    · show max (-(Real.pi / 4)) (min (Real.pi / 3) (co.angleX - dy * Cam.MOUSE_SENSITIVITY))
        ≤ Real.pi / 3
      exact max_le (by linarith) (min_le_left _ _)
    · exact hd1
    · exact hd2
  · refine ⟨hx1, hx2, ?_, ?_⟩
    · show Cam.CAMERA_MIN_DISTANCE
        ≤ max Cam.CAMERA_MIN_DISTANCE (min Cam.CAMERA_MAX_DISTANCE (co.distance + dw * 0.01))
      exact le_max_left _ _
    · show max Cam.CAMERA_MIN_DISTANCE (min Cam.CAMERA_MAX_DISTANCE (co.distance + dw * 0.01))
        ≤ Cam.CAMERA_MAX_DISTANCE
      exact max_le (by norm_num [Cam.CAMERA_MIN_DISTANCE, Cam.CAMERA_MAX_DISTANCE])
        (min_le_left _ _)

/-- Claim C10: the remote `teleport` command overwrites only the player's
position and the attached character model's position (feet offset below
the new position); vertical velocity, `onGround`, facing rotation, the
model's rotation, and the whole camera orbit are unchanged. -/
theorem teleport_overwrites_position_only (g : Remote.ClientState) (x y z : ℝ) :
    (Remote.handleTeleport g x y z).player.position = ⟨x, y, z⟩
    ∧ (Remote.handleTeleport g x y z).player.velocity = g.player.velocity
    ∧ (Remote.handleTeleport g x y z).player.onGround = g.player.onGround
    ∧ (Remote.handleTeleport g x y z).player.rotation = g.player.rotation
    ∧ (Remote.handleTeleport g x y z).cameraOrbit = g.cameraOrbit
    ∧ (Remote.handleTeleport g x y z).characterModel
        = g.characterModel.map fun m =>
            { m with position := ⟨x, y - Remote.PLAYER_HEIGHT, z⟩ } :=
  ⟨rfl, rfl, rfl, rfl, rfl, rfl⟩

/-! ### Witnesses -/

/-- Witness for `grounded_frame_snaps_exactly`: a concrete grounded frame
on flat ground at elevation 0 with `δ = 1/100`. -/
theorem grounded_frame_snaps_exactly_witness :
    (Phys.frameStep Phys.horizId Phys.probeFlat false (1 / 100) Phys.demoGrounded).onGround = true
    ∧ ((Phys.frameStep Phys.horizId Phys.probeFlat false (1 / 100) Phys.demoGrounded).onGround
          = true →
        (Phys.frameStep Phys.horizId Phys.probeFlat false (1 / 100) Phys.demoGrounded).position.y
            = (Phys.frameStep Phys.horizId Phys.probeFlat false
                (1 / 100) Phys.demoGrounded).groundHeight + Phys.PLAYER_HEIGHT
          ∧ (Phys.frameStep Phys.horizId Phys.probeFlat false
              (1 / 100) Phys.demoGrounded).velocity.y = 0) := by
  constructor
  · norm_num [Phys.frameStep, Phys.gravityStep, Phys.jumpStep, Phys.applyHoriz,
      Phys.groundResolve, Phys.abyssStep, Phys.demoGrounded, Phys.probeFlat, Phys.horizId,
      Phys.PLAYER_HEIGHT, Phys.GRAVITY, Phys.STEP_HEIGHT]
  · exact grounded_frame_snaps_exactly Phys.horizId Phys.probeFlat (1 / 100) Phys.demoGrounded
      (by norm_num) rfl rfl
      (fun p => by norm_num [Phys.probeFlat, Phys.PLAYER_HEIGHT])

/-- Witness for `missing_ground_falls_when_above_fallback`: a player high
above the fallback plane with no probe hits keeps falling. -/
theorem missing_ground_falls_when_above_fallback_witness :
    (Phys.frameStep Phys.horizId Phys.probeNone false (1 / 10) Phys.demoAirborne).onGround = false
    ∧ (Phys.frameStep Phys.horizId Phys.probeNone false (1 / 10) Phys.demoAirborne).position.y
        = (Phys.gravityStep (1 / 10)
            (Phys.jumpStep (Phys.applyHoriz Phys.horizId Phys.demoAirborne) false)).position.y :=
  missing_ground_falls_when_above_fallback Phys.horizId Phys.probeNone false (1 / 10)
    Phys.demoAirborne (fun _ => rfl)
    (by norm_num [Phys.gravityStep, Phys.jumpStep, Phys.applyHoriz, Phys.demoAirborne,
      Phys.horizId, Phys.PLAYER_HEIGHT, Phys.GRAVITY])

/-- Witness for `step_up_snap_within_step_height`: a grounded player
stepping onto a ledge of height 1/4 ≤ `STEP_HEIGHT`. -/
theorem step_up_snap_within_step_height_witness :
    (Phys.frameStep Phys.horizId Phys.probeQuarter false (1 / 100) Phys.demoGrounded).position.y
        = 1 / 4 + Phys.PLAYER_HEIGHT
    ∧ (Phys.frameStep Phys.horizId Phys.probeQuarter false (1 / 100) Phys.demoGrounded).velocity.y
        = 0
    ∧ (Phys.frameStep Phys.horizId Phys.probeQuarter false (1 / 100) Phys.demoGrounded).onGround
        = true
    ∧ (Phys.frameStep Phys.horizId Phys.probeQuarter false
        (1 / 100) Phys.demoGrounded).groundHeight = 1 / 4 :=
  step_up_snap_within_step_height Phys.horizId Phys.probeQuarter (1 / 100) (1 / 4)
    Phys.demoGrounded rfl rfl (by norm_num) (fun _ => rfl)
    (by norm_num [Phys.demoGrounded])
    (by norm_num [Phys.demoGrounded, Phys.STEP_HEIGHT])
    (by norm_num [Phys.PLAYER_HEIGHT])
    (by norm_num [Phys.demoGrounded, Phys.PLAYER_HEIGHT])

/-- Witness for `jump_impulse_and_airborne_inertness`: a grounded player
and an airborne player on flat ground with `δ = 1/100`. -/
theorem jump_impulse_and_airborne_inertness_witness :
    Phys.jumpStep Phys.demoGrounded true
        = { Phys.demoGrounded with
            velocity := ⟨Phys.demoGrounded.velocity.x, Phys.JUMP_VELOCITY,
              Phys.demoGrounded.velocity.z⟩,
            onGround := false }
    ∧ Phys.frameStep Phys.horizId Phys.probeFlat true (1 / 100) Phys.demoAirborne
        = Phys.frameStep Phys.horizId Phys.probeFlat false (1 / 100) Phys.demoAirborne
    ∧ (Phys.frameStep Phys.horizId Phys.probeFlat true (1 / 100) Phys.demoGrounded).onGround
        = false :=
  jump_impulse_and_airborne_inertness Phys.demoGrounded Phys.demoAirborne Phys.horizId
    Phys.probeFlat (1 / 100) rfl rfl (by norm_num) (by norm_num)

/-- Witness for `slide_removes_normal_component`: movement `(1, 1)` into
the unit wall normal `(-1, 0)` slides to `(0, 1)` — the normal component
is removed and the tangential component along `(0, 1)` is preserved. -/
theorem slide_removes_normal_component_witness :
    Wall.slideMove ⟨1, 1⟩ ⟨-1, 0⟩ = ⟨0, 1⟩
    ∧ Wall.dot2 (Wall.slideMove ⟨1, 1⟩ ⟨-1, 0⟩) ⟨-1, 0⟩ = 0
    ∧ Wall.dot2 (Wall.slideMove ⟨1, 1⟩ ⟨-1, 0⟩) ⟨0, 1⟩ = Wall.dot2 ⟨1, 1⟩ ⟨0, 1⟩ := by
  have hw : ((⟨-1, 0⟩ : V2 ℝ)).x ^ 2 + ((⟨-1, 0⟩ : V2 ℝ)).y ^ 2 = 1 := by norm_num
  have ht : Wall.dot2 ⟨0, 1⟩ ⟨-1, 0⟩ = 0 := by norm_num [Wall.dot2]
  have hneg : Wall.dot2 ⟨1, 1⟩ ⟨-1, 0⟩ < 0 := by norm_num [Wall.dot2]
  obtain ⟨h1, h2, h3⟩ := (slide_removes_normal_component ⟨1, 1⟩ ⟨-1, 0⟩ ⟨0, 1⟩ hw ht).1 hneg
  refine ⟨?_, h2, h3⟩
  rw [h1]
  norm_num [Wall.dot2]

/-- Witness for `ground_probe_first_walkable`: on the demonstration list
the probe skips the wall-like first hit and returns the floor at
elevation 3, with the promised decomposition. -/
theorem ground_probe_first_walkable_witness :
    Ground.getGroundHeight Ground.demoHits = some 3
    ∧ ∃ l1 h l2, Ground.demoHits = l1 ++ h :: l2 ∧ (∀ h' ∈ l1, Ground.steep h')
        ∧ Ground.walkable h ∧ (3 : ℚ) = h.point.y := by
  have h1 : Ground.getGroundHeight Ground.demoHits = some 3 := by
    norm_num [Ground.getGroundHeight, Ground.demoHits]
  exact ⟨h1, (ground_probe_first_walkable Ground.demoHits).1 3 h1⟩

/-- Witness for `wall_probe_epsilon_identity`: the zero displacement is
below the epsilon and is returned unchanged. -/
theorem wall_probe_epsilon_identity_witness :
    Wall.checkWallCollision Wall.noHits ⟨0, 0, 0⟩ ⟨0, 0, 0⟩ = ⟨0, 0, 0⟩ :=
  wall_probe_epsilon_identity Wall.noHits ⟨0, 0, 0⟩ ⟨0, 0, 0⟩
    (by norm_num [Wall.norm3, Real.sqrt_zero])

/-- Witness for `wall_probe_deterministic`: two runs over the same empty
geometry and the same endpoints agree. -/
theorem wall_probe_deterministic_witness :
    Wall.checkWallCollision Wall.noHits ⟨0, 0, 0⟩ ⟨1, 0, 0⟩
      = Wall.checkWallCollision Wall.noHits ⟨0, 0, 0⟩ ⟨1, 0, 0⟩ :=
  wall_probe_deterministic Wall.noHits Wall.noHits (fun _ _ _ => rfl) ⟨0, 0, 0⟩ ⟨1, 0, 0⟩

/-- Witness for `mouse_and_wheel_preserve_orbit_clamps`: the resting orbit
with unit mouse and wheel deltas. -/
theorem mouse_and_wheel_preserve_orbit_clamps_witness :
    (-(Real.pi / 4) ≤ (Cam.applyMouseMove Cam.co0 1 1).angleX
      ∧ (Cam.applyMouseMove Cam.co0 1 1).angleX ≤ Real.pi / 3
      ∧ Cam.CAMERA_MIN_DISTANCE ≤ (Cam.applyMouseMove Cam.co0 1 1).distance
      ∧ (Cam.applyMouseMove Cam.co0 1 1).distance ≤ Cam.CAMERA_MAX_DISTANCE)
    ∧ (-(Real.pi / 4) ≤ (Cam.applyWheel Cam.co0 1).angleX
      ∧ (Cam.applyWheel Cam.co0 1).angleX ≤ Real.pi / 3
      ∧ Cam.CAMERA_MIN_DISTANCE ≤ (Cam.applyWheel Cam.co0 1).distance
      ∧ (Cam.applyWheel Cam.co0 1).distance ≤ Cam.CAMERA_MAX_DISTANCE) :=
  mouse_and_wheel_preserve_orbit_clamps Cam.co0 1 1 1
    (by have := Real.pi_pos; show -(Real.pi / 4) ≤ (0 : ℝ); linarith)
    (by have := Real.pi_pos; show (0 : ℝ) ≤ Real.pi / 3; linarith)
    (by show Cam.CAMERA_MIN_DISTANCE ≤ (5 : ℝ); norm_num [Cam.CAMERA_MIN_DISTANCE])
    (by show (5 : ℝ) ≤ Cam.CAMERA_MAX_DISTANCE; norm_num [Cam.CAMERA_MAX_DISTANCE])
